import Mathlib

/-!
Verification of the student-mark-prediction app's core logic
(`src/app.py`): the heuristic fallback scorer, the derived study-profile
classifier, and the history/favorites store with its persistence layer.

Numeric inputs are modelled as rationals (`ℚ`): the Python code computes
with floats, but every constant in the fallback formula (0.8, 1.2, 2.5,
0.5, …) and every slider step (0.5 for hours, 1 for percentages) is
exactly representable, so rational arithmetic coincides with the float
arithmetic the program performs on its input grid.
-/

namespace StudentMark

/-! ### Fallback scorer, `FallbackModel.predict` (src/app.py lines 110-174) -/

/-- Study-hours contribution (lines 118-128). -/
def study_impact (study_hours : ℚ) : ℚ :=
  if study_hours ≤ 1 then -15
  else if study_hours ≤ 2 then -5
  else if study_hours ≤ 4 then study_hours * 3
  else if study_hours ≤ 6 then 12 + (study_hours - 4) * 2
  else 16 + (study_hours - 6) * 1

/-- Attendance contribution (lines 131-139). -/
def attendance_impact (attendance : ℚ) : ℚ :=
  if attendance < 60 then -20
  else if attendance < 75 then (attendance - 60) * 0.8
  else if attendance < 90 then 12 + (attendance - 75) * 1.2
  else 30 + (attendance - 90) * 0.5

/-- Mental-health contribution (lines 142-150). -/
def mental_impact (mental_health : ℚ) : ℚ :=
  if mental_health ≤ 3 then -15
  else if mental_health ≤ 5 then (mental_health - 3) * 2.5
  else if mental_health ≤ 8 then 5 + (mental_health - 5) * 3
  else 14 + (mental_health - 8) * 2

/-- Sleep-hours contribution (lines 153-165). -/
def sleep_impact (sleep_hours : ℚ) : ℚ :=
  if sleep_hours < 5 then -20
  else if sleep_hours < 6 then -10
  else if sleep_hours < 7 then -5
  else if sleep_hours ≤ 8 then 10
  else if sleep_hours ≤ 9 then 5
  else -5

/-- Part-time-job contribution (line 168): `-12 if part_time_job == 1 else 5`.
The feature is the 0/1 encoding of the Yes/No selector, modelled as `Bool`. -/
def job_impact (part_time_job : Bool) : ℚ :=
  if part_time_job then -12 else 5

/-- `FallbackModel.predict` (lines 111-174): base score 40 plus the five
contributions, clamped by `max(0, min(100, final_score))`. -/
def fallback_predict (study_hours attendance mental_health sleep_hours : ℚ)
    (part_time_job : Bool) : ℚ :=
  let base_score : ℚ := 40
  let final_score := base_score + study_impact study_hours
    + attendance_impact attendance + mental_impact mental_health
    + sleep_impact sleep_hours + job_impact part_time_job
  max 0 (min 100 final_score)

/-! ### The scoring formula as the spec (§4.1) words it

These definitions are transcribed from the specification text, not from the
code, so that the code's scorer can be compared against them. -/

/-- Modelled from the spec §4.1: "Study-hours contribution:
≤1h → −15; ≤2h → −5; ≤4h → hours×3; ≤6h → 12 + (hours−4)×2; >6h → 16 + (hours−6)×1." -/
def spec_study_contribution (hours : ℚ) : ℚ :=
  if hours ≤ 1 then -15
  else if hours ≤ 2 then -5
  else if hours ≤ 4 then hours * 3
  else if hours ≤ 6 then 12 + (hours - 4) * 2
  else 16 + (hours - 6) * 1

/-- Modelled from the spec §4.1: "Attendance contribution: <60 → −20;
<75 → (attendance−60)×0.8; <90 → 12 + (attendance−75)×1.2; ≥90 → 30 + (attendance−90)×0.5." -/
def spec_attendance_contribution (attendance : ℚ) : ℚ :=
  if attendance < 60 then -20
  else if attendance < 75 then (attendance - 60) * 0.8
  else if attendance < 90 then 12 + (attendance - 75) * 1.2
  else 30 + (attendance - 90) * 0.5

/-- Modelled from the spec §4.1: "Mental-health contribution: ≤3 → −15;
≤5 → (value−3)×2.5; ≤8 → 5 + (value−5)×3; >8 → 14 + (value−8)×2." -/
def spec_mental_contribution (value : ℚ) : ℚ :=
  if value ≤ 3 then -15
  else if value ≤ 5 then (value - 3) * 2.5
  else if value ≤ 8 then 5 + (value - 5) * 3
  else 14 + (value - 8) * 2

/-- Modelled from the spec §4.1: "Sleep contribution: <5 → −20; <6 → −10;
<7 → −5; ≤8 → +10; ≤9 → +5; >9 → −5." -/
def spec_sleep_contribution (sleep : ℚ) : ℚ :=
  if sleep < 5 then -20
  else if sleep < 6 then -10
  else if sleep < 7 then -5
  else if sleep ≤ 8 then 10
  else if sleep ≤ 9 then 5
  else -5

/-- Modelled from the spec §4.1: "Job contribution: has job → −12; no job → +5." -/
def spec_job_contribution (has_job : Bool) : ℚ :=
  if has_job then -12 else 5

/-- Modelled from the spec §4.1: clamp to [0,100]. -/
def spec_clamp (x : ℚ) : ℚ := max 0 (min 100 x)

/-- Modelled from the spec §4.1: "Base score = 40. Sum four independent
piecewise-linear contributions, then add a fixed job penalty/bonus, then
clamp to [0,100]." -/
def spec_score (study attendance mental sleep : ℚ) (has_job : Bool) : ℚ :=
  spec_clamp (40 + spec_study_contribution study
    + spec_attendance_contribution attendance + spec_mental_contribution mental
    + spec_sleep_contribution sleep + spec_job_contribution has_job)

/-- **C1** — On every admissible input 5-tuple the fallback scorer agrees with
the spec's formula `clamp(40 + study + attendance + mental + sleep + job, 0, 100)`
branch for branch, and the study-hours boundary is inclusive on the stated
side: 1.0 takes the `≤1` branch (−15) while any value strictly above 1 and at
most 2 takes the `≤2` branch (−5). -/
theorem fallback_predict_matches_spec
    (sh a mh sl : ℚ) (job : Bool)
    (hsh0 : 0 ≤ sh) (hsh1 : sh ≤ 12) (ha0 : 0 ≤ a) (ha1 : a ≤ 100)
    (hmh0 : 1 ≤ mh) (hmh1 : mh ≤ 10) (hsl0 : 0 ≤ sl) (hsl1 : sl ≤ 12) :
    fallback_predict sh a mh sl job = spec_score sh a mh sl job
      ∧ study_impact 1 = -15
      ∧ (1 < sh → sh ≤ 2 → study_impact sh = -5) := by
  refine ⟨rfl, by norm_num [study_impact], ?_⟩
  intro h1 h2
  rw [study_impact, if_neg (by linarith), if_pos h2]

/-- Witness for C1 at the boundary-straddling input sh = 1.5. -/
theorem fallback_predict_matches_spec_witness :
    fallback_predict 1.5 80 5 7 false = spec_score 1.5 80 5 7 false
      ∧ study_impact 1 = -15
      ∧ (1 < (1.5 : ℚ) → (1.5 : ℚ) ≤ 2 → study_impact 1.5 = -5) :=
  fallback_predict_matches_spec 1.5 80 5 7 false
    (by norm_num) (by norm_num) (by norm_num) (by norm_num)
    (by norm_num) (by norm_num) (by norm_num) (by norm_num)

/-- Python's `round(x, 1)` (line 895) on a rational: round `10·x` to the
nearest integer, ties to even, and divide by 10.  (The float-representation
error of binary floats is abstracted away; on the app's half-step input grid
the scores are exact decimals.) -/
def python_round1 (q : ℚ) : ℚ :=
  let x := q * 10
  let f : ℤ := ⌊x⌋
  let n : ℤ :=
    if x - f < 1/2 then f
    else if x - f > 1/2 then f + 1
    else if Even f then f else f + 1
  (n : ℚ) / 10

/-- The predict-button handler (line 895):
`prediction = max(0, min(100, round(prediction, 1)))` — the value stored in
the history record. -/
def stored_score (prediction : ℚ) : ℚ :=
  max 0 (min 100 (python_round1 prediction))

/-- **C5** — The heuristic score is deterministic (equal inputs give equal
outputs) and always lies in [0,100], and so does the clamped-and-rounded
`predicted_score` the handler stores in a history record. -/
theorem fallback_predict_deterministic_and_bounded
    (sh a mh sl : ℚ) (job : Bool) :
    fallback_predict sh a mh sl job = fallback_predict sh a mh sl job
      ∧ 0 ≤ fallback_predict sh a mh sl job
      ∧ fallback_predict sh a mh sl job ≤ 100
      ∧ 0 ≤ stored_score (fallback_predict sh a mh sl job)
      ∧ stored_score (fallback_predict sh a mh sl job) ≤ 100 := by
  refine ⟨rfl, le_max_left _ _, max_le (by norm_num) (min_le_left _ _),
    le_max_left _ _, max_le (by norm_num) (min_le_left _ _)⟩

/-! ### Study profile classifier, `get_study_profile` (src/app.py lines 285-294) -/

/-- `get_study_profile` (lines 285-294).  The job selector value is the
string "No"/"Yes", as in the code. -/
def get_study_profile (study_hours attendance mental_health sleep_hours : ℚ)
    (part_time_job : String) : String :=
  if study_hours ≥ 4 ∧ attendance ≥ 90 ∧ mental_health ≥ 8 ∧
      (7 ≤ sleep_hours ∧ sleep_hours ≤ 8) ∧ part_time_job = "No" then
    "🎯 High Performer"
  else if study_hours ≥ 3 ∧ attendance ≥ 80 ∧ mental_health ≥ 6 then
    "⚡ Balanced Student"
  else if study_hours < 2 ∨ attendance < 70 ∨ mental_health < 4 then
    "💪 Needs Support"
  else
    "📊 Average Performer"

/-- The four study profiles named by the spec. -/
inductive StudyProfile where
  | highPerformer
  | balancedStudent
  | needsSupport
  | averagePerformer
deriving DecidableEq

/-- Modelled from the spec §4.1: "High Performer if study_hours≥4 AND
attendance≥90 AND mental_health≥8 AND 7≤sleep≤8 AND no job; else Balanced
Student if study_hours≥3 AND attendance≥80 AND mental_health≥6; else Needs
Support if study_hours<2 OR attendance<70 OR mental_health<4; else Average
Performer", first matching clause winning. -/
def spec_study_profile (study attendance mental sleep : ℚ) (has_job : Bool) :
    StudyProfile :=
  if study ≥ 4 ∧ attendance ≥ 90 ∧ mental ≥ 8 ∧ (7 ≤ sleep ∧ sleep ≤ 8) ∧
      has_job = false then
    .highPerformer
  else if study ≥ 3 ∧ attendance ≥ 80 ∧ mental ≥ 6 then
    .balancedStudent
  else if study < 2 ∨ attendance < 70 ∨ mental < 4 then
    .needsSupport
  else
    .averagePerformer

/-- The display string the code uses for each profile. -/
def profileLabel : StudyProfile → String
  | .highPerformer => "🎯 High Performer"
  | .balancedStudent => "⚡ Balanced Student"
  | .needsSupport => "💪 Needs Support"
  | .averagePerformer => "📊 Average Performer"

/-- **C6** — The classifier realises exactly the spec's decision list, first
matching clause winning: for every input (the job selector being "Yes" or
"No"), `get_study_profile` returns the label of the spec's profile. -/
theorem get_study_profile_matches_spec
    (study attendance mental sleep : ℚ) (has_job : Bool) :
    get_study_profile study attendance mental sleep
        (if has_job then "Yes" else "No")
      = profileLabel (spec_study_profile study attendance mental sleep has_job) := by
  cases has_job <;>
    simp only [get_study_profile, spec_study_profile, profileLabel] <;>
    split_ifs with h1 h2 h3 <;>
    first
      | rfl
      | (exfalso; simp_all)

/-! ### History/favorites store (src/app.py, `show_predictions_table` and
session state)

The history is a list of records and the favorites a Python list of `int`
positions into it.  Favorite values are modelled as `ℤ` because Python
subtraction can in principle go negative; the delete index itself comes from
`enumerate` and is a natural number. -/

/-- Python errors this subsystem can raise. -/
inductive PyErr where
  | indexError
deriving DecidableEq

/-- The favorites bookkeeping of the delete handler (lines 616-623):
remove `idx` from favorites if present (`list.remove` drops the first
occurrence), then renumber with
`fav_idx if fav_idx < idx else fav_idx - 1`. -/
def delete_favorites (favs : List ℤ) (idx : ℕ) : List ℤ :=
  (if (idx : ℤ) ∈ favs then favs.erase (idx : ℤ) else favs).map
    fun fav => if fav < (idx : ℤ) then fav else fav - 1

/-- The successful path of the delete handler (lines 613-624):
`history.pop(idx)` plus the favorites bookkeeping. -/
def delete_entry {α : Type} (hist : List α) (favs : List ℤ) (idx : ℕ) :
    List α × List ℤ :=
  (hist.eraseIdx idx, delete_favorites favs idx)

/-- The delete handler including Python's `list.pop(idx)` bounds behaviour:
`pop` raises `IndexError` before touching the list when `idx` is out of
range, so on error the whole handler aborts with both lists unchanged. -/
def delete_handler {α : Type} (hist : List α) (favs : List ℤ) (idx : ℕ) :
    Option PyErr × List α × List ℤ :=
  if idx < hist.length then (none, delete_entry hist favs idx)
  else (some .indexError, hist, favs)

/-- The favorite-toggle handler (lines 596-604): remove `idx` when it is a
favorite, otherwise append it. -/
def toggle_favorite (favs : List ℤ) (idx : ℤ) : List ℤ :=
  if idx ∈ favs then favs.erase idx else favs ++ [idx]

/-- The new position of an old favorite `fav` after deleting index `idx`. -/
def renumber (idx : ℕ) (fav : ℤ) : ℤ :=
  if fav < (idx : ℤ) then fav else fav - 1

/-- **C2** — Deleting a valid index `i` from a history whose favorites are
distinct and all in range removes exactly the record at `i` (entries below
`i` keep their position, entries above shift down one), and the new
favorites are exactly the old favorites other than `i`, renumbered, each
still referencing the very record it referenced before. -/
theorem delete_entry_correct {α : Type} (hist : List α) (favs : List ℤ)
    (i : ℕ) (hi : i < hist.length) (hnd : favs.Nodup)
    (hvalid : ∀ f ∈ favs, 0 ≤ f ∧ f.toNat < hist.length) :
    (delete_entry hist favs i).1.length + 1 = hist.length
      ∧ (∀ j : ℕ, j < i → (delete_entry hist favs i).1[j]? = hist[j]?)
      ∧ (∀ j : ℕ, i ≤ j → (delete_entry hist favs i).1[j]? = hist[j + 1]?)
      ∧ (∀ f ∈ favs, f ≠ (i : ℤ) →
          renumber i f ∈ (delete_entry hist favs i).2
            ∧ (delete_entry hist favs i).1[(renumber i f).toNat]?
                = hist[f.toNat]?)
      ∧ (∀ g ∈ (delete_entry hist favs i).2,
          ∃ f ∈ favs, f ≠ (i : ℤ) ∧ g = renumber i f) := by
  have herase : ∀ f : ℤ, f ∈ (if (i : ℤ) ∈ favs then favs.erase (i : ℤ)
      else favs) ↔ f ≠ (i : ℤ) ∧ f ∈ favs := by
    intro f
    split_ifs with hmem
    · exact hnd.mem_erase_iff
    · constructor
      · intro hf
        refine ⟨?_, hf⟩
        rintro rfl
        exact hmem hf
      · exact fun h => h.2
  refine ⟨?_, ?_, ?_, ?_, ?_⟩
  · simp [delete_entry, List.length_eraseIdx, hi, Nat.sub_add_cancel
      (Nat.one_le_of_lt hi)]
  · intro j hj
    simpa [delete_entry] using List.getElem?_eraseIdx_of_lt hist i j hj
  · intro j hj
    simpa [delete_entry] using List.getElem?_eraseIdx_of_ge hist i j hj
  · intro f hf hne
    have h0 : 0 ≤ f := (hvalid f hf).1
    have hlt : f.toNat < hist.length := (hvalid f hf).2
    constructor
    · exact List.mem_map.2 ⟨f, (herase f).2 ⟨hne, hf⟩, rfl⟩
    · rw [renumber]
      split_ifs with hcase
      · exact List.getElem?_eraseIdx_of_lt hist i f.toNat
          (by omega)
      · push_neg at hcase
        have hgt : (i : ℤ) < f := lt_of_le_of_ne hcase (Ne.symm hne)
        have htn : (f - 1).toNat = f.toNat - 1 := by omega
        have htn1 : f.toNat - 1 + 1 = f.toNat := by omega
        rw [htn]
        have h2 := List.getElem?_eraseIdx_of_ge hist i (f.toNat - 1) (by omega)
        rw [htn1] at h2
        exact h2
  · intro g hg
    rcases List.mem_map.1 hg with ⟨f, hf, rfl⟩
    rcases (herase f).1 hf with ⟨hne, hfav⟩
    exact ⟨f, hfav, hne, rfl⟩

/-- Witness for C2: the spec's own example — history [A,B,C] with favorites
{0,2}; deleting index 0 yields history [B,C] and favorites {1}. -/
theorem delete_entry_correct_witness :
    delete_entry ["A", "B", "C"] [0, 2] 0 = (["B", "C"], [1])
      ∧ ((delete_entry ["A", "B", "C"] [0, 2] 0).1.length + 1
          = (["A", "B", "C"] : List String).length
        ∧ (∀ j : ℕ, j < 0 →
            (delete_entry ["A", "B", "C"] [0, 2] 0).1[j]?
              = (["A", "B", "C"] : List String)[j]?)
        ∧ (∀ j : ℕ, 0 ≤ j →
            (delete_entry ["A", "B", "C"] [0, 2] 0).1[j]?
              = (["A", "B", "C"] : List String)[j + 1]?)
        ∧ (∀ f ∈ ([0, 2] : List ℤ), f ≠ ((0 : ℕ) : ℤ) →
            renumber 0 f ∈ (delete_entry ["A", "B", "C"] [0, 2] 0).2
              ∧ (delete_entry ["A", "B", "C"] [0, 2] 0).1[(renumber 0 f).toNat]?
                  = (["A", "B", "C"] : List String)[f.toNat]?)
        ∧ (∀ g ∈ (delete_entry ["A", "B", "C"] [0, 2] 0).2,
            ∃ f ∈ ([0, 2] : List ℤ), f ≠ ((0 : ℕ) : ℤ) ∧ g = renumber 0 f)) :=
  ⟨by decide,
   delete_entry_correct ["A", "B", "C"] [0, 2] 0 (by decide) (by decide)
     (by decide)⟩

/-- **C8** — Deleting with an out-of-range index raises an IndexError and
leaves the state fully unchanged: `pop` is the first statement of the
handler and fails before any mutation, so neither the history nor any
favorite index is touched. -/
theorem delete_handler_out_of_range {α : Type} (hist : List α)
    (favs : List ℤ) (idx : ℕ) (h : hist.length ≤ idx) :
    delete_handler hist favs idx = (some .indexError, hist, favs) := by
  rw [delete_handler, if_neg (by omega)]

/-- Witness for C8: deleting index 3 from a two-element history. -/
theorem delete_handler_out_of_range_witness :
    delete_handler ["A", "B"] [1] 3 = (some .indexError, ["A", "B"], [1]) :=
  delete_handler_out_of_range ["A", "B"] [1] 3 (by decide)

/-- **C9** — The favorite toggle preserves distinctness of the favorites
list: starting from a duplicate-free list, removing the index when present,
or appending it when absent, yields a duplicate-free list again. -/
theorem toggle_favorite_nodup (favs : List ℤ) (idx : ℤ)
    (hnd : favs.Nodup) : (toggle_favorite favs idx).Nodup := by
  rw [toggle_favorite]
  split_ifs with hmem
  · exact hnd.erase idx
  · exact List.Nodup.append hnd (List.nodup_singleton idx)
      (by simpa [List.disjoint_singleton] using hmem)

/-- Witness for C9 on a concrete duplicate-free favorites list. -/
theorem toggle_favorite_nodup_witness :
    (toggle_favorite [0, 2] 1).Nodup :=
  toggle_favorite_nodup [0, 2] 1 (by decide)

/-! ### Persistence (src/app.py lines 18-104)

The durable medium holds a JSON document.  JSON values are modelled by a
small inductive; Python dicts become association lists. -/

/-- JSON values as the persistence layer uses them. -/
inductive Json where
  | str (s : String)
  | int (n : ℤ)
  | num (q : ℚ)
  | arr (l : List Json)
  | obj (l : List (String × Json))

/-- Dictionary field access, `d[k]` / `d.get(k, …)`. -/
def jget (j : Json) (k : String) : Option Json :=
  match j with
  | .obj l => l.lookup k
  | _ => none

/-- A history entry, with exactly the fields the predict handler stores
(lines 901-909) plus the two added by `add_timestamp_to_history`
(lines 340-351). -/
structure Record where
  studentName : String
  studyHours : ℚ
  attendance : ℤ
  mentalHealth : ℤ
  sleepHours : ℚ
  partTimeJob : String
  predictedScore : ℚ
  timestamp : String
  studyProfile : String

/-- The JSON dict form of a history entry, with the keys the code writes. -/
def encode_record (r : Record) : Json :=
  .obj [("Student Name", .str r.studentName),
        ("Study Hours", .num r.studyHours),
        ("Attendance", .int r.attendance),
        ("Mental Health", .int r.mentalHealth),
        ("Sleep Hours", .num r.sleepHours),
        ("Part-time Job", .str r.partTimeJob),
        ("Predicted Score", .num r.predictedScore),
        ("Timestamp", .str r.timestamp),
        ("Study Profile", .str r.studyProfile)]

/-- String field read; the default mirrors the code's
`row.get('Student Name', 'Student')` where the code has a default. -/
def decode_str (j : Option Json) (d : String) : String :=
  match j with
  | some (.str s) => s
  | _ => d

/-- Numeric (rational) field read. -/
def decode_num (j : Option Json) : ℚ :=
  match j with
  | some (.num q) => q
  | _ => 0

/-- Integer field read. -/
def decode_int (j : Option Json) : ℤ :=
  match j with
  | some (.int n) => n
  | _ => 0

/-- Read a history entry back from its JSON dict.  The Python code keeps
entries as dicts and reads the fields at the use sites; restricting the
state to the `Record` type packages those reads in one place. -/
def decode_record (j : Json) : Record where
  studentName := decode_str (jget j "Student Name") "Student"
  studyHours := decode_num (jget j "Study Hours")
  attendance := decode_int (jget j "Attendance")
  mentalHealth := decode_int (jget j "Mental Health")
  sleepHours := decode_num (jget j "Sleep Hours")
  partTimeJob := decode_str (jget j "Part-time Job") "No"
  predictedScore := decode_num (jget j "Predicted Score")
  timestamp := decode_str (jget j "Timestamp") ""
  studyProfile := decode_str (jget j "Study Profile") ""

/-- The elements of a JSON array. -/
def json_arr : Json → List Json
  | .arr l => l
  | _ => []

/-- The integer elements of a JSON array (favorites are stored as ints). -/
def json_ints : Json → List ℤ
  | .arr l => l.filterMap fun j =>
      match j with
      | .int n => some n
      | _ => none
  | _ => []

/-- `save_history_to_file` (lines 18-31): the document written to
`student_predictions_data.json`, holding history, favorites and a
`last_saved` timestamp. -/
def save_file (hist : List Record) (favs : List ℤ) (t : String) : Json :=
  .obj [("history", .arr (hist.map encode_record)),
        ("favorites", .arr (favs.map .int)),
        ("last_saved", .str t)]

/-- `load_history_from_file` decoding (lines 38-40):
`history_data.get("history", [])` and `history_data.get("favorites", [])`. -/
def load_file (j : Json) : List Record × List ℤ :=
  ((json_arr ((jget j "history").getD (.arr []))).map decode_record,
   json_ints ((jget j "favorites").getD (.arr [])))

/-- `load_history_from_query_params` decoding (lines 74-75): the
query-param backup stores the pair under the keys "h" and "f". -/
def load_params_data (j : Json) : List Record × List ℤ :=
  ((json_arr ((jget j "h").getD (.arr []))).map decode_record,
   json_ints ((jget j "f").getD (.arr [])))

theorem decode_encode_record (r : Record) :
    decode_record (encode_record r) = r := rfl

theorem json_ints_map_int (favs : List ℤ) :
    json_ints (.arr (favs.map .int)) = favs := by
  induction favs with
  | nil => rfl
  | cons f fs ih => simpa [json_ints] using ih

theorem load_file_save_file (hist : List Record) (favs : List ℤ)
    (t : String) : load_file (save_file hist favs t) = (hist, favs) := by
  rw [load_file, save_file]
  refine Prod.ext ?_ ?_
  · show (hist.map encode_record).map decode_record = hist
    simp [List.map_map, Function.comp_def, decode_encode_record]
  · exact json_ints_map_int favs

/-- **C3** — Saving and then loading restores the (records, favorites) pair
identically, for every pair, and in particular for the pair obtained after a
delete and a favorite toggle have been applied. -/
theorem save_load_roundtrip (hist : List Record) (favs : List ℤ)
    (t : String) :
    load_file (save_file hist favs t) = (hist, favs)
      ∧ ∀ (i : ℕ) (k : ℤ),
          load_file (save_file (delete_entry hist favs i).1
              (toggle_favorite (delete_entry hist favs i).2 k) t)
            = ((delete_entry hist favs i).1,
               toggle_favorite (delete_entry hist favs i).2 k) :=
  ⟨load_file_save_file hist favs t,
   fun i k => load_file_save_file _ _ t⟩

/-! ### Model loading at startup (src/app.py lines 107-185) -/

/-- The scorer the app ends up with: the external artifact's model, or the
hand-coded fallback. -/
inductive LoadedModel (M : Type) where
  | external (m : M)
  | fallbackModel

/-- Errors the startup block can raise. -/
inductive StartupErr where
  | nameError (en : String)

/-- The model-loading block (lines 107-185).  `fileExists` is
`os.path.exists("best_model.pkl")`; `loadResult` is `some m` when
`joblib.load` succeeds and `none` when it raises.  When the file is absent,
the code defines class `FallbackModel`, warns, and uses it.  When the file
exists but deserialization fails, the `except` handler (line 184) evaluates
`FallbackModel()` — but that class name is bound only inside the
file-absent branch (line 110), so Python raises `NameError` there; this is
the `.error` result.  The boolean records whether a warning was shown. -/
def startup_model {M : Type} (fileExists : Bool) (loadResult : Option M) :
    Except StartupErr (LoadedModel M × Bool) :=
  if fileExists = false then
    .ok (.fallbackModel, true)
  else
    match loadResult with
    | some m => .ok (.external m, false)
    | none => .error (.nameError "FallbackModel")

/-- **C4** — Contrary to the claim, only the absent-artifact path substitutes
the fallback with a warning; in the exists-but-fails-to-deserialize path the
recovery code itself raises `NameError` (`FallbackModel` is defined only in
the absent branch), so an error does propagate to the caller. -/
theorem startup_model_corrupt_artifact_raises :
    startup_model (M := Unit) true none
        = .error (.nameError "FallbackModel")
      ∧ (∀ r : Option Unit, startup_model false r = .ok (.fallbackModel, true)) :=
  ⟨rfl, fun _ => rfl⟩

/-! ### Loading at startup (src/app.py lines 33-44, 66-80, 92-104) -/

/-- What the durable medium (the JSON file, or the query-param slot)
holds: nothing, undecodable bytes, or a JSON document. -/
inductive FileContent where
  | missing
  | corrupt
  | good (j : Json)

/-- `load_history_from_file` (lines 33-44) as a state transformer.
Missing file: the `os.path.exists` guard fails and `False` is returned with
the session state untouched.  Corrupt file: `json.load` raises, the
`except` shows a non-fatal `st.error` and `False` is returned, state
untouched.  Otherwise the state is replaced by the decoded pair. -/
def load_history_from_file (file : FileContent)
    (st : List Record × List ℤ) : (List Record × List ℤ) × Bool :=
  match file with
  | .missing => (st, false)
  | .corrupt => (st, false)
  | .good j => (load_file j, true)

/-- `load_history_from_query_params` (lines 66-80): same shape, with the
"h"/"f" keys, and a silent `except`. -/
def load_history_from_query_params (params : FileContent)
    (st : List Record × List ℤ) : (List Record × List ℤ) × Bool :=
  match params with
  | .missing => (st, false)
  | .corrupt => (st, false)
  | .good j => (load_params_data j, true)

/-- `load_history` (lines 92-104): try the file; if that fails, try the
query params, and on success write the loaded data back to the file
(line 101).  Returns the new session state and the new file content. -/
def load_history (file params : FileContent) (t : String)
    (st : List Record × List ℤ) :
    (List Record × List ℤ) × FileContent :=
  match load_history_from_file file st with
  | (st1, true) => (st1, file)
  | (st1, false) =>
    match load_history_from_query_params params st1 with
    | (st2, true) => (st2, .good (save_file st2.1 st2.2 t))
    | (st2, false) => (st2, file)

/-- **C7** — Loading never fails the caller: when every channel of the
persisted medium is missing or corrupt, loading from the startup state
yields the empty store (the decode exceptions are caught and the
pre-initialised empty session state is kept), and loading is idempotent —
a second load from the medium left by the first produces the same store. -/
theorem load_history_tolerant_and_idempotent (t : String) :
    (load_history .missing .missing t ([], [])).1 = ([], [])
      ∧ (load_history .missing .corrupt t ([], [])).1 = ([], [])
      ∧ (load_history .corrupt .missing t ([], [])).1 = ([], [])
      ∧ (load_history .corrupt .corrupt t ([], [])).1 = ([], [])
      ∧ ∀ (file params : FileContent) (st : List Record × List ℤ),
          (load_history (load_history file params t st).2 params t
              (load_history file params t st).1).1
            = (load_history file params t st).1 := by
  refine ⟨rfl, rfl, rfl, rfl, ?_⟩
  intro file params st
  cases file <;> cases params <;>
    simp [load_history, load_history_from_file,
      load_history_from_query_params, load_file_save_file]

/-! ### Clear-all (src/app.py lines 934-940) -/

/-- The slice of the session state the Clear-All handler can see. -/
structure AppState where
  history : List Record
  favorites : List ℤ
  prediction : Option ℚ
  predictionMade : Bool
  showHistory : Bool
  displayedPrediction : Bool
  showBalloons : Bool

/-- The Clear-All-History handler (lines 934-940): empty the history and
favorites, reset the two display flags, and persist via `save_history`.
`save_history` writes the file (lines 26-27); the query-param backup is
skipped for an empty history (line 49).  Returns the new state and the file
content written. -/
def clear_all_handler (st : AppState) (t : String) : AppState × Json :=
  let cleared := { st with history := ([] : List Record),
                           favorites := ([] : List ℤ),
                           displayedPrediction := false,
                           showBalloons := false }
  (cleared, save_file cleared.history cleared.favorites t)

/-- **C10** — Clear-all empties the record sequence and the favorites and
persists that empty state (the written medium loads back as the empty
pair), while the current prediction value and the prediction-made flag are
left unchanged. -/
theorem clear_all_correct (st : AppState) (t : String) :
    (clear_all_handler st t).1.history = []
      ∧ (clear_all_handler st t).1.favorites = []
      ∧ load_file (clear_all_handler st t).2 = ([], [])
      ∧ (clear_all_handler st t).1.prediction = st.prediction
      ∧ (clear_all_handler st t).1.predictionMade = st.predictionMade :=
  ⟨rfl, rfl, load_file_save_file [] [] t, rfl, rfl⟩

end StudentMark
